import Mathlib

/-!
Shallow embedding of the discord-news-bot pipeline (src/index.ts).

The bot is thin glue over three external collaborators (news search,
language model, chat delivery).  We embed the pipeline as pure functions
over an `Env` record that fixes the collaborators' responses: the news
collaborator is a function from the built search parameters to a result
(which may throw, or return a possibly-null article array), the language
model is a function from the prompt text to a result (throw, or a
completion whose `content` may be null/absent).  Side effects (the LLM
call, channel sends, message replies, embed suppression) are reified as a
trace: a `List BotAction` returned by the pipeline functions.
-/

/-- `Article` from src/index.ts: title, optional/nullable description,
url, publishedAt (ISO string). -/
structure Article where
  title : String
  description : Option String
  url : String
  publishedAt : String
deriving Repr, DecidableEq

/-- The parameter record handed to `newsapi.v2.everything`: `q`,
`sortBy: 'publishedAt'`, `pageSize`, and `language` present only in
AI-filter mode (`none` models an absent key). -/
structure SearchParams where
  q : String
  sortBy : String
  pageSize : Nat
  language : Option String
deriving Repr, DecidableEq

/-- Delivery target of `composeAndSend`: a `TextChannel` (has a `send`
method, so the `'send' in target` check succeeds) or a `Message`
(no `send`, so the bot calls `reply`). -/
inductive Target where
  | channel
  | message
deriving Repr, DecidableEq

/-- Observable effects of one pipeline run, in order. -/
inductive BotAction where
  | llmCall (prompt : String)
  | send (text : String)
  | reply (text : String)
  | suppressEmbeds
deriving Repr, DecidableEq

/-- Collaborator responses for one pipeline run.  `news` models
`newsapi.v2.everything` (`Except` = the call throws; `Option` = the
`articles` field may be null, handled by `articles ?? []`).  `llm`
models `openai.chat.completions.create` applied to the user-message
content (`Except` = the call throws; the `Option String` is the first
choice's `message.content`, which may be null/absent).  `jstDate`
models `toJSTDate`, i.e. the runtime's `Date`/locale formatting, an
external facility. -/
structure Env where
  news : SearchParams → Except String (Option (List Article))
  llm : String → Except String (Option String)
  jstDate : String → String

/- ------------------------- string helpers ------------------------- -/

/-- JS `String.prototype.trim` on a character list: drop whitespace from
both ends. -/
def jsTrim (l : List Char) : List Char :=
  ((l.dropWhile Char.isWhitespace).reverse.dropWhile Char.isWhitespace).reverse

/-- JS `.trim()` lifted to `String`. -/
def trimS (s : String) : String :=
  String.mk (jsTrim s.data)

/-- JS `Array.prototype.join(sep)` on strings. -/
def joinSepS (sep : String) : List String → String
  | [] => ""
  | [x] => x
  | x :: y :: ys => x ++ sep ++ joinSepS sep (y :: ys)

/-- JS `Array.prototype.map((a, i) => ...)`: map carrying the element
index, starting at `n`. -/
def mapWithIndex (f : Nat → α → β) : Nat → List α → List β
  | _, [] => []
  | i, a :: as => f i a :: mapWithIndex f (i + 1) as

/- ------------------------- regex matchers ------------------------- -/

/-- Match `[0-9]+>` at the head of `l`; on success return the remainder
after the `>`. -/
def digitsGt (l : List Char) : Option (List Char) :=
  if (l.takeWhile Char.isDigit).isEmpty then none
  else
    match l.dropWhile Char.isDigit with
    | '>' :: r => some r
    | _ => none

/-- Match the user-mention regex `<@!?[0-9]+>` at the head of `l`. -/
def matchUser (l : List Char) : Option (List Char) :=
  match l with
  | a :: b :: rest =>
    if a = '<' && b = '@' then
      match rest with
      | c :: rest2 => if c = '!' then digitsGt rest2 else digitsGt rest
      | [] => none
    else none
  | _ => none

/-- Match the role-mention regex `<@&[0-9]+>` at the head of `l`. -/
def matchRole (l : List Char) : Option (List Char) :=
  match l with
  | a :: b :: c :: rest =>
    if a = '<' && b = '@' && c = '&' then digitsGt rest else none
  | _ => none

/-- Match the channel-mention regex `<#(?:[0-9]+)>` at the head of `l`. -/
def matchChan (l : List Char) : Option (List Char) :=
  match l with
  | a :: b :: rest =>
    if a = '<' && b = '#' then digitsGt rest else none
  | _ => none

/-- One pass of JS `String.replace(re, '')` with a global regex: scan
left to right; at each position either the matcher consumes a match
(which is deleted and scanning resumes after it) or the character is
kept.  Fueled; `replAll` supplies fuel `l.length`, which suffices for
matchers that always consume at least one character. -/
def replFuel (m : List Char → Option (List Char)) : Nat → List Char → List Char
  | _, [] => []
  | 0, l => l
  | f + 1, c :: cs =>
    match m (c :: cs) with
    | some rest => replFuel m f rest
    | none => c :: replFuel m f cs

/-- Global delete-all-matches replacement. -/
def replAll (m : List Char → Option (List Char)) (l : List Char) : List Char :=
  replFuel m l.length l

/-- Is there a match of `m` anywhere in `l`? -/
def hasMatch (m : List Char → Option (List Char)) : List Char → Bool
  | [] => false
  | c :: cs => (m (c :: cs)).isSome || hasMatch m cs

/-- `stripMentions` from src/index.ts on the character list: delete all
user mentions, then all role mentions, then all channel mentions, then
trim. -/
def stripMentionsL (l : List Char) : List Char :=
  jsTrim (replAll matchChan (replAll matchRole (replAll matchUser l)))

/-- `stripMentions` from src/index.ts. -/
def stripMentions (s : String) : String :=
  String.mk (stripMentionsL s.data)

/- --------------------------- pipeline ----------------------------- -/

/-- The query string built by `fetchNews`: with `aiFilter` the topic is
augmented with the AI disjunction, otherwise used raw. -/
def buildQuery (query : String) (aiFilter : Bool) : String :=
  if aiFilter then
    query ++ " AND (AI OR \"artificial intelligence\" OR GenerativeAI)"
  else query

/-- The full parameter record `fetchNews` passes to the news search:
`language: 'en'` is set exactly when `aiFilter` is true. -/
def buildParams (query : String) (pageSize : Nat) (aiFilter : Bool) : SearchParams :=
  { q := buildQuery query aiFilter
    sortBy := "publishedAt"
    pageSize := pageSize
    language := if aiFilter then some "en" else none }

/-- `fetchNews` from src/index.ts: call the news collaborator with the
built params; a thrown error is caught and yields `[]`; a null
`articles` field also yields `[]` (`articles ?? []`). -/
def fetchNews (env : Env) (query : String) (pageSize : Nat) (aiFilter : Bool) : List Article :=
  match env.news (buildParams query pageSize aiFilter) with
  | .error _ => []
  | .ok r => r.getD []

/-- The per-article prompt segment `【i+1】title\ndescription` built in
`summarize` (0-based index `i`; absent description becomes empty text). -/
def promptSegment (i : Nat) (a : Article) : String :=
  "【" ++ Nat.repr (i + 1) ++ "】" ++ a.title ++ "\n" ++ a.description.getD ""

/-- The `promptBody` built in `summarize`: segments joined by blank
lines. -/
def promptBody (articles : List Article) : String :=
  joinSepS "\n\n" (mapWithIndex promptSegment 0 articles)

/-- The fixed instruction prefixed to the prompt body in `summarize`. -/
def promptInstruction : String :=
  "次の複数記事を日本語 200 字以内で分かりやすく要約し、" ++
  "箇条書きでポイントを整理してください。\n\n"

/-- The full user-message content sent to the language model. -/
def promptFor (articles : List Article) : String :=
  promptInstruction ++ promptBody articles

/-- The fixed fallback returned when the summarization call throws. -/
def fallbackSummary : String := "⚠️ 要約に失敗しました"

/-- `summarize` from src/index.ts, as a value: the trimmed completion
content (`content?.trim() ?? ''`, so empty text when the content is
null/absent); the fixed fallback when the call throws. -/
def summarize (env : Env) (articles : List Article) : String :=
  match env.llm (promptFor articles) with
  | .ok (some s) => trimS s
  | .ok none => ""
  | .error _ => fallbackSummary

/-- One line of `makeArticleList`: `【i+1】date ｜ url`. -/
def articleLine (env : Env) (i : Nat) (a : Article) : String :=
  "【" ++ Nat.repr (i + 1) ++ "】" ++ env.jstDate a.publishedAt ++ " ｜ " ++ a.url

/-- The indexed lines of `makeArticleList`, in input order. -/
def articleLines (env : Env) (articles : List Article) : List String :=
  mapWithIndex (articleLine env) 0 articles

/-- `makeArticleList` from src/index.ts. -/
def makeArticleList (env : Env) (articles : List Article) : String :=
  joinSepS "\n" (articleLines env articles)

/-- "Not found" notice texts: `target.send(...)` for channels,
`target.reply(...)` for messages. -/
def notFoundChannelText : String := "本日のニュースは見つかりませんでした。"

/-- Reply-side "not found" notice text. -/
def notFoundReplyText : String := "関連ニュースが見つかりませんでした。"

/-- The single notice action sent on an empty fetch result, chosen by
the target's capability (`'send' in target`). -/
def notFoundAction : Target → BotAction
  | .channel => .send notFoundChannelText
  | .message => .reply notFoundReplyText

/-- Delivery of the composed message, by target capability. -/
def deliverAction : Target → String → BotAction
  | .channel, text => .send text
  | .message, text => .reply text

/-- The header built in `composeAndSend`. -/
def header (theme : String) (aiFilter : Bool) : String :=
  if aiFilter then "📰 今日の AI ニュースまとめ"
  else "📰 **" ++ theme ++ "** に関する最新ニュースまとめ"

/-- The full message body built in `composeAndSend` for a non-empty
article list. -/
def composedMessage (env : Env) (theme : String) (aiFilter : Bool)
    (articles : List Article) : String :=
  header theme aiFilter ++ "\n" ++ summarize env articles ++ "\n" ++
  "──────────────\n" ++ makeArticleList env articles

/-- `composeAndSend` from src/index.ts as an action trace: fetch (page
size 5); on an empty result send/reply the fixed notice and stop;
otherwise call the summarizer once, build the message, deliver it, and
suppress embeds on the sent message. -/
def composeAndSend (env : Env) (target : Target) (theme : String)
    (aiFilter : Bool) : List BotAction :=
  let articles := fetchNews env theme 5 aiFilter
  if articles.length = 0 then
    [notFoundAction target]
  else
    [BotAction.llmCall (promptFor articles),
     deliverAction target (composedMessage env theme aiFilter articles),
     BotAction.suppressEmbeds]

/-- An inbound Discord message as seen by the `messageCreate` handler:
whether the author is a bot, the channel id, and the raw content. -/
structure InboundMsg where
  authorBot : Bool
  channelId : String
  content : String

/-- The `messageCreate` handler: ignore bot authors, messages outside
the configured target channel (an unset `TARGET_CHANNEL_ID` is `none`
and never equals a channel id), and messages whose mention-stripped,
trimmed content is empty; otherwise run `composeAndSend` on the message
with the stripped text as theme and `aiFilter` false. -/
def onMessageCreate (env : Env) (targetChannelId : Option String)
    (msg : InboundMsg) : List BotAction :=
  if msg.authorBot then []
  else if targetChannelId ≠ some msg.channelId then []
  else
    let theme := trimS (stripMentions msg.content)
    if theme = "" then []
    else composeAndSend env Target.message theme false

/-- Number of language-model calls in a trace. -/
def countLlm (tr : List BotAction) : Nat :=
  tr.countP fun a => match a with | .llmCall _ => true | _ => false

/-- `pat` occurs as a contiguous segment of `s`. -/
def strContains (pat s : String) : Prop :=
  ∃ l r : List Char, s.data = l ++ (pat.data ++ r)

/- --------------------------- helper lemmas ------------------------ -/

theorem dropWhile_dropWhile (p : α → Bool) (l : List α) :
    (l.dropWhile p).dropWhile p = l.dropWhile p := by
  induction l with
  | nil => rfl
  | cons c cs ih =>
    by_cases h : p c
    · simp [List.dropWhile_cons, h, ih]
    · simp [List.dropWhile_cons, h]

theorem length_dropWhile_le (p : α → Bool) (l : List α) :
    (l.dropWhile p).length ≤ l.length := by
  induction l with
  | nil => simp
  | cons c cs ih =>
    by_cases h : p c
    · simp only [List.dropWhile_cons, h, if_pos]
      exact Nat.le_trans ih (Nat.le_succ _)
    · simp [List.dropWhile_cons, h]

theorem dropWhile_eq_self_append (p : α → Bool) (v t : List α)
    (h : (v ++ t).dropWhile p = v ++ t) : v.dropWhile p = v := by
  cases v with
  | nil => rfl
  | cons c v' =>
    have hc : p c = false := by
      by_contra hpc
      have hpc' : p c = true := by
        cases hp : p c
        · exact absurd hp hpc
        · rfl
      rw [List.cons_append, List.dropWhile_cons_of_pos hpc'] at h
      have hlen := congrArg List.length h
      have hle := length_dropWhile_le p (v' ++ t)
      have hat : (v' ++ t).length = v'.length + t.length := List.length_append v' t
      simp at hlen
      omega
    simp [List.dropWhile_cons, hc]

theorem jsTrim_jsTrim (l : List Char) : jsTrim (jsTrim l) = jsTrim l := by
  unfold jsTrim
  set w := Char.isWhitespace with hw
  set u := l.dropWhile w with hu
  set d := u.reverse.dropWhile w with hd
  have hA : d.reverse.dropWhile w = d.reverse := by
    have hsplit : u.reverse.takeWhile w ++ d = u.reverse := by
      rw [hd]; exact List.takeWhile_append_dropWhile w u.reverse
    have hu2 : u = d.reverse ++ (u.reverse.takeWhile w).reverse := by
      have := congrArg List.reverse hsplit
      simpa using this.symm
    have huself : u.dropWhile w = u := by
      rw [hu]; exact dropWhile_dropWhile w l
    rw [hu2] at huself
    exact dropWhile_eq_self_append w _ _ huself
  have hB : d.dropWhile w = d := by
    rw [hd]; exact dropWhile_dropWhile w u.reverse
  rw [hA, List.reverse_reverse, hB]

theorem replFuel_congr (m : List Char → Option (List Char))
    (Hm : ∀ l r, m l = some r → r.length < l.length) :
    ∀ f g l, l.length ≤ f → l.length ≤ g → replFuel m f l = replFuel m g l := by
  intro f
  induction f with
  | zero =>
    intro g l hf _
    have : l = [] := List.length_eq_zero.mp (Nat.le_zero.mp hf)
    subst this
    cases g <;> rfl
  | succ f' ih =>
    intro g l hf hg
    cases l with
    | nil => cases g <;> rfl
    | cons c cs =>
      cases g with
      | zero => simp at hg
      | succ g' =>
        show replFuel m (f' + 1) (c :: cs) = replFuel m (g' + 1) (c :: cs)
        simp only [replFuel]
        cases hm : m (c :: cs) with
        | some rest =>
          have hlt := Hm _ _ hm
          simp only [List.length_cons] at hlt hf hg
          exact ih g' rest (by omega) (by omega)
        | none =>
          simp only [List.length_cons] at hf hg
          rw [ih g' cs (by omega) (by omega)]

theorem replAll_cons_match (m : List Char → Option (List Char))
    (Hm : ∀ l r, m l = some r → r.length < l.length)
    (c : Char) (cs rest : List Char) (hm : m (c :: cs) = some rest) :
    replAll m (c :: cs) = replAll m rest := by
  unfold replAll
  have h1 : replFuel m (c :: cs).length (c :: cs) = replFuel m cs.length rest := by
    simp only [List.length_cons, replFuel, hm]
  rw [h1]
  have hlt := Hm _ _ hm
  simp only [List.length_cons] at hlt
  exact replFuel_congr m Hm cs.length rest.length rest (by omega) (Nat.le_refl _)

theorem replAll_cons_none (m : List Char → Option (List Char))
    (_Hm : ∀ l r, m l = some r → r.length < l.length)
    (c : Char) (cs : List Char) (hm : m (c :: cs) = none) :
    replAll m (c :: cs) = c :: replAll m cs := by
  unfold replAll
  simp only [List.length_cons, replFuel, hm]

theorem replAll_eq_self (m : List Char → Option (List Char))
    (Hm : ∀ l r, m l = some r → r.length < l.length)
    (l : List Char) (h : hasMatch m l = false) : replAll m l = l := by
  induction l with
  | nil => rfl
  | cons c cs ih =>
    unfold hasMatch at h
    simp only [Bool.or_eq_false_iff] at h
    have hm : m (c :: cs) = none := by
      cases hmc : m (c :: cs) with
      | none => rfl
      | some rest => rw [hmc] at h; simp at h
    rw [replAll_cons_none m Hm c cs hm, ih h.2]

theorem digitsGt_lt (l r : List Char) (h : digitsGt l = some r) :
    r.length < l.length := by
  unfold digitsGt at h
  split at h
  · exact absurd h (by simp)
  · split at h
    · rename_i heq
      have hr : r.length + 1 = (l.dropWhile Char.isDigit).length := by
        rw [heq]
        cases h
        simp
      have hle := length_dropWhile_le Char.isDigit l
      omega
    · exact absurd h (by simp)

theorem matchUser_lt (l r : List Char) (h : matchUser l = some r) :
    r.length < l.length := by
  unfold matchUser at h
  split at h
  · rename_i a b rest
    split at h
    · split at h
      · rename_i c rest2
        split at h
        · have := digitsGt_lt rest2 r h
          simp only [List.length_cons]
          omega
        · have := digitsGt_lt _ r h
          simp only [List.length_cons] at this ⊢
          omega
      · exact absurd h (by simp)
    · exact absurd h (by simp)
  · exact absurd h (by simp)

theorem matchRole_lt (l r : List Char) (h : matchRole l = some r) :
    r.length < l.length := by
  unfold matchRole at h
  split at h
  · split at h
    · have := digitsGt_lt _ r h
      simp only [List.length_cons]
      omega
    · exact absurd h (by simp)
  · exact absurd h (by simp)

theorem matchChan_lt (l r : List Char) (h : matchChan l = some r) :
    r.length < l.length := by
  unfold matchChan at h
  split at h
  · split at h
    · have := digitsGt_lt _ r h
      simp only [List.length_cons]
      omega
    · exact absurd h (by simp)
  · exact absurd h (by simp)

theorem strData_append (s t : String) : (s ++ t).data = s.data ++ t.data := rfl

theorem strMk_data (l : List Char) : (String.mk l).data = l := rfl

theorem strData_mk (s : String) : String.mk s.data = s := rfl

theorem length_mapWithIndex (f : Nat → α → β) :
    ∀ (n : Nat) (l : List α), (mapWithIndex f n l).length = l.length := by
  intro n l
  induction l generalizing n with
  | nil => rfl
  | cons a as ih => simp [mapWithIndex, ih]

theorem get_mapWithIndex (f : Nat → α → β) :
    ∀ (l : List α) (n i : Nat) (h : i < l.length)
      (h2 : i < (mapWithIndex f n l).length),
      (mapWithIndex f n l).get ⟨i, h2⟩ = f (n + i) (l.get ⟨i, h⟩) := by
  intro l
  induction l with
  | nil => intro n i h h2; simp at h
  | cons a as ih =>
    intro n i h h2
    cases i with
    | zero => simp [mapWithIndex]
    | succ j =>
      simp only [mapWithIndex, List.get_cons_succ]
      have hj : j < as.length := by simpa using h
      rw [ih (n + 1) j hj]
      congr 1
      omega

theorem mem_joinSepS (sep x : String) :
    ∀ xs : List String, x ∈ xs →
      ∃ l r : List Char, (joinSepS sep xs).data = l ++ (x.data ++ r) := by
  intro xs
  induction xs with
  | nil => intro h; simp at h
  | cons y ys ih =>
    intro hmem
    cases ys with
    | nil =>
      have hx : x = y := by simpa using hmem
      subst hx
      exact ⟨[], [], by simp [joinSepS]⟩
    | cons z zs =>
      rcases List.mem_cons.mp hmem with hxy | hxin
      · subst hxy
        refine ⟨[], (sep ++ joinSepS sep (z :: zs)).data, ?_⟩
        simp [joinSepS, strData_append]
      · rcases ih hxin with ⟨l, r, hlr⟩
        refine ⟨(y ++ sep).data ++ l, r, ?_⟩
        show (y ++ sep ++ joinSepS sep (z :: zs)).data = _
        rw [strData_append, hlr]
        simp

/-- Normalization the catch-block and `articles ?? []` of `fetchNews`
apply to a raw news-collaborator result. -/
def newsToArticles (r : Except String (Option (List Article))) : List Article :=
  match r with
  | .error _ => []
  | .ok a => a.getD []

theorem composeAndSend_of_empty (env : Env) (target : Target) (theme : String)
    (aiFilter : Bool) (h : fetchNews env theme 5 aiFilter = []) :
    composeAndSend env target theme aiFilter = [notFoundAction target] := by
  simp [composeAndSend, h]

theorem composeAndSend_of_nonempty (env : Env) (target : Target) (theme : String)
    (aiFilter : Bool) (arts : List Article)
    (h : fetchNews env theme 5 aiFilter = arts) (hne : arts ≠ []) :
    composeAndSend env target theme aiFilter =
      [BotAction.llmCall (promptFor arts),
       deliverAction target (composedMessage env theme aiFilter arts),
       BotAction.suppressEmbeds] := by
  have hlen : ¬ arts.length = 0 := fun hl => hne (List.length_eq_zero.mp hl)
  simp [composeAndSend, h, hlen]

theorem no_send_in_message_trace (env : Env) (theme : String) (aiFilter : Bool)
    (s : String) : BotAction.send s ∉ composeAndSend env Target.message theme aiFilter := by
  unfold composeAndSend
  by_cases h : (fetchNews env theme 5 aiFilter).length = 0
  · simp [h, notFoundAction]
  · simp [h, deliverAction]

/- --------------------- concrete witness data ---------------------- -/

/-- A concrete article with a description. -/
def artW : Article :=
  { title := "T1", description := some "D1", url := "https://e.x/1",
    publishedAt := "2025-01-01T00:00:00Z" }

/-- A concrete article without a description. -/
def artW2 : Article :=
  { title := "T2", description := none, url := "https://e.x/2",
    publishedAt := "2025-01-02T00:00:00Z" }

/-- Collaborators returning an empty article list. -/
def envEmpty : Env :=
  { news := fun _ => .ok (some []), llm := fun _ => .ok (some "S"),
    jstDate := fun _ => "2025/01/01" }

/-- Collaborators returning two articles and a padded summary. -/
def envTwo : Env :=
  { news := fun _ => .ok (some [artW, artW2]), llm := fun _ => .ok (some " S "),
    jstDate := fun _ => "2025/01/01" }

/-- News succeeds with two articles; the summarization call throws. -/
def envThrowLlm : Env :=
  { news := fun _ => .ok (some [artW, artW2]), llm := fun _ => .error "boom",
    jstDate := fun _ => "2025/01/01" }

/-- The news-search call throws. -/
def envThrowNews : Env :=
  { news := fun _ => .error "network down", llm := fun _ => .ok (some "S"),
    jstDate := fun _ => "2025/01/01" }

/-- News succeeds; the summarization call succeeds with null content. -/
def envNullLlm : Env :=
  { news := fun _ => .ok (some [artW]), llm := fun _ => .ok none,
    jstDate := fun _ => "2025/01/01" }

/-- News succeeds; the summarization call succeeds, and its completion
text happens to equal the fallback string. -/
def envFallbackContent : Env :=
  { news := fun _ => .ok (some [artW]),
    llm := fun _ => .ok (some "⚠️ 要約に失敗しました"),
    jstDate := fun _ => "2025/01/01" }

/-- A concrete inbound user message in channel `c1`. -/
def msgW : InboundMsg :=
  { authorBot := false, channelId := "c1", content := " <@99> hello " }

/- ------------------------- claim theorems ------------------------- -/

/-- C1: for every article list of length 0 returned by the fetch step,
`composeAndSend` sends exactly one "not found" notice to the delivery
target (the trace is just that one notice) and terminates without ever
calling the summarizer (no language-model call in the trace). -/
theorem c1_empty_fetch_one_notice_no_llm (env : Env) (target : Target)
    (theme : String) (aiFilter : Bool)
    (h : fetchNews env theme 5 aiFilter = []) :
    composeAndSend env target theme aiFilter = [notFoundAction target] ∧
    countLlm (composeAndSend env target theme aiFilter) = 0 := by
  have he := composeAndSend_of_empty env target theme aiFilter h
  refine ⟨he, ?_⟩
  rw [he]
  cases target <;> rfl

/-- C1 witness: a concrete run whose fetch yields the empty list sends
one notice and makes no language-model call. -/
theorem c1_empty_fetch_one_notice_no_llm_witness :
    composeAndSend envEmpty Target.channel "AI" true =
      [notFoundAction Target.channel] ∧
    countLlm (composeAndSend envEmpty Target.channel "AI" true) = 0 :=
  c1_empty_fetch_one_notice_no_llm envEmpty Target.channel "AI" true rfl

/-- C2: with `aiFilter` true, `fetchNews` issues the augmented query
with `language: 'en'`; with `aiFilter` false, the raw topic with no
language constraint; the articles it returns are exactly the
normalization of the news collaborator's response to the built params;
and for topic "AI" with `aiFilter` true the query is exactly
`AI AND (AI OR "artificial intelligence" OR GenerativeAI)`. -/
theorem c2_query_construction (env : Env) (query : String) (pageSize : Nat) :
    (buildParams query pageSize true).q =
      query ++ " AND (AI OR \"artificial intelligence\" OR GenerativeAI)" ∧
    (buildParams query pageSize true).language = some "en" ∧
    (buildParams query pageSize false).q = query ∧
    (buildParams query pageSize false).language = none ∧
    (∀ aiFilter : Bool, fetchNews env query pageSize aiFilter =
      newsToArticles (env.news (buildParams query pageSize aiFilter))) ∧
    (buildParams "AI" 5 true).q =
      "AI AND (AI OR \"artificial intelligence\" OR GenerativeAI)" := by
  refine ⟨rfl, rfl, rfl, rfl, ?_, rfl⟩
  intro aiFilter
  unfold fetchNews newsToArticles
  rfl

/-- C7: if the news-search call throws, `fetchNews` returns the empty
article list (the error is caught; `fetchNews` is total, so nothing
propagates to the caller). -/
theorem c7_fetch_error_gives_empty (env : Env) (query : String)
    (pageSize : Nat) (aiFilter : Bool) (e : String)
    (h : env.news (buildParams query pageSize aiFilter) = .error e) :
    fetchNews env query pageSize aiFilter = [] := by
  unfold fetchNews
  rw [h]

/-- C7 witness: a concrete throwing news collaborator yields `[]`. -/
theorem c7_fetch_error_gives_empty_witness :
    fetchNews envThrowNews "AI" 5 true = [] :=
  c7_fetch_error_gives_empty envThrowNews "AI" 5 true "network down" rfl

/-- C9: on an empty fetch result the notice sent depends only on the
delivery target's capability, not on the mode flag or the theme: any
two empty-fetch runs to the same target send the same trace, which is
the channel "daily news" notice via `send` for channel targets and the
"related news" notice via `reply` for message targets. -/
theorem c9_notice_depends_only_on_target (env : Env) (theme theme2 : String)
    (af af2 : Bool) (target : Target)
    (h1 : fetchNews env theme 5 af = [])
    (h2 : fetchNews env theme2 5 af2 = []) :
    composeAndSend env target theme af = composeAndSend env target theme2 af2 ∧
    composeAndSend env target theme af = [notFoundAction target] ∧
    (target = Target.channel →
      composeAndSend env target theme af = [BotAction.send notFoundChannelText]) ∧
    (target = Target.message →
      composeAndSend env target theme af = [BotAction.reply notFoundReplyText]) := by
  have e1 := composeAndSend_of_empty env target theme af h1
  have e2 := composeAndSend_of_empty env target theme2 af2 h2
  refine ⟨e1.trans e2.symm, e1, ?_, ?_⟩
  · intro ht; subst ht; exact e1
  · intro ht; subst ht; exact e1

/-- C9 witness: the empty ad-hoc run for "quantum computing" and the
empty curated run for "AI" to a message target send the same single
"related news not found" reply. -/
theorem c9_notice_depends_only_on_target_witness :
    composeAndSend envEmpty Target.message "quantum computing" false =
      composeAndSend envEmpty Target.message "AI" true ∧
    composeAndSend envEmpty Target.message "quantum computing" false =
      [BotAction.reply notFoundReplyText] := by
  have hh := c9_notice_depends_only_on_target envEmpty "quantum computing" "AI"
    false true Target.message rfl rfl
  exact ⟨hh.1, hh.2.2.2 rfl⟩

/-- C3: for a non-empty fetched article list, if the summarization call
throws then `summarize` yields the fixed fallback string, and
`composeAndSend` still formats and delivers the message containing that
fallback together with the rendered article list. -/
theorem c3_summarize_failure_still_delivers (env : Env) (target : Target)
    (theme : String) (aiFilter : Bool) (arts : List Article) (e : String)
    (hfetch : fetchNews env theme 5 aiFilter = arts) (hne : arts ≠ [])
    (hllm : env.llm (promptFor arts) = .error e) :
    summarize env arts = fallbackSummary ∧
    composeAndSend env target theme aiFilter =
      [BotAction.llmCall (promptFor arts),
       deliverAction target
         (header theme aiFilter ++ "\n" ++ fallbackSummary ++ "\n" ++
          "──────────────\n" ++ makeArticleList env arts),
       BotAction.suppressEmbeds] := by
  have hsum : summarize env arts = fallbackSummary := by
    unfold summarize
    rw [hllm]
  refine ⟨hsum, ?_⟩
  rw [composeAndSend_of_nonempty env target theme aiFilter arts hfetch hne]
  unfold composedMessage
  rw [hsum]

/-- C3 witness: a throwing summarizer on a concrete two-article run
still delivers the fallback plus article list. -/
theorem c3_summarize_failure_still_delivers_witness :
    summarize envThrowLlm [artW, artW2] = fallbackSummary ∧
    composeAndSend envThrowLlm Target.message "quantum" false =
      [BotAction.llmCall (promptFor [artW, artW2]),
       deliverAction Target.message
         (header "quantum" false ++ "\n" ++ fallbackSummary ++ "\n" ++
          "──────────────\n" ++ makeArticleList envThrowLlm [artW, artW2]),
       BotAction.suppressEmbeds] :=
  c3_summarize_failure_still_delivers envThrowLlm Target.message "quantum" false
    [artW, artW2] "boom" rfl (by decide) rfl

/-- C6: for a non-empty fetched list, the delivered message is the
mode-dependent header, the summary, the separator line, and one line
per article in input order; line `i` is the ordinal marker, the
localized date of article `i`, and its URL. -/
theorem c6_message_format (env : Env) (target : Target) (theme : String)
    (aiFilter : Bool) (arts : List Article)
    (hfetch : fetchNews env theme 5 aiFilter = arts) (hne : arts ≠ []) :
    composeAndSend env target theme aiFilter =
      [BotAction.llmCall (promptFor arts),
       deliverAction target
         (header theme aiFilter ++ "\n" ++ summarize env arts ++ "\n" ++
          "──────────────\n" ++ joinSepS "\n" (articleLines env arts)),
       BotAction.suppressEmbeds] ∧
    header theme true = "📰 今日の AI ニュースまとめ" ∧
    header theme false = "📰 **" ++ theme ++ "** に関する最新ニュースまとめ" ∧
    (articleLines env arts).length = arts.length ∧
    (∀ (i : Nat) (h : i < arts.length) (h2 : i < (articleLines env arts).length),
      (articleLines env arts).get ⟨i, h2⟩ =
        "【" ++ Nat.repr (i + 1) ++ "】" ++
        env.jstDate ((arts.get ⟨i, h⟩).publishedAt) ++ " ｜ " ++
        (arts.get ⟨i, h⟩).url) := by
  refine ⟨?_, rfl, rfl, length_mapWithIndex (articleLine env) 0 arts, ?_⟩
  · rw [composeAndSend_of_nonempty env target theme aiFilter arts hfetch hne]
    rfl
  · intro i h h2
    unfold articleLines at h2 ⊢
    rw [get_mapWithIndex (articleLine env) arts 0 i h h2]
    simp [articleLine]

/-- C6 witness: the concrete two-article run delivers the formatted
message with two lines in input order. -/
theorem c6_message_format_witness :
    composeAndSend envTwo Target.channel "AI" true =
      [BotAction.llmCall (promptFor [artW, artW2]),
       deliverAction Target.channel
         (header "AI" true ++ "\n" ++ summarize envTwo [artW, artW2] ++ "\n" ++
          "──────────────\n" ++ joinSepS "\n" (articleLines envTwo [artW, artW2])),
       BotAction.suppressEmbeds] :=
  (c6_message_format envTwo Target.channel "AI" true [artW, artW2] rfl (by decide)).1

/-- C4 counterexample: mention-stripping is not idempotent.  On
`"<<@1>@2>"` the first strip deletes `<@1>`, which glues the leading
`<` to `@2>` and creates a fresh user mention `<@2>`; the second strip
deletes it. -/
theorem c4_strip_not_idempotent :
    stripMentions (stripMentions "<<@1>@2>") ≠ stripMentions "<<@1>@2>" := by
  decide

/-- C4 amended: mention-stripping is idempotent on every string whose
stripped form contains no residual mention markup (in particular
whenever the deletions do not splice together a new mention). -/
theorem c4_strip_idem_of_no_residual_mention (s : String)
    (hu : hasMatch matchUser (stripMentions s).data = false)
    (hr : hasMatch matchRole (stripMentions s).data = false)
    (hc : hasMatch matchChan (stripMentions s).data = false) :
    stripMentions (stripMentions s) = stripMentions s := by
  show String.mk (stripMentionsL (stripMentions s).data) = stripMentions s
  unfold stripMentionsL
  rw [replAll_eq_self matchUser matchUser_lt _ hu,
      replAll_eq_self matchRole matchRole_lt _ hr,
      replAll_eq_self matchChan matchChan_lt _ hc]
  show String.mk
    (jsTrim (jsTrim (replAll matchChan (replAll matchRole (replAll matchUser s.data))))) =
    stripMentions s
  rw [jsTrim_jsTrim]
  rfl

/-- C4 amended witness: on a string with one user mention, a second
strip changes nothing. -/
theorem c4_strip_idem_of_no_residual_mention_witness :
    stripMentions (stripMentions "hi <@42> there") = stripMentions "hi <@42> there" :=
  c4_strip_idem_of_no_residual_mention "hi <@42> there"
    (by decide) (by decide) (by decide)

/-- C5: for a non-empty fetched article list, the summarizer is called
exactly once in the run, with the built prompt; that prompt contains,
for every article, its full segment (ordinal marker, then title, then
its description with an absent description as empty text), and in
particular every article's title. -/
theorem c5_summarizer_once_with_all_titles (env : Env) (target : Target)
    (theme : String) (aiFilter : Bool) (arts : List Article)
    (hfetch : fetchNews env theme 5 aiFilter = arts) (hne : arts ≠ []) :
    countLlm (composeAndSend env target theme aiFilter) = 1 ∧
    BotAction.llmCall (promptFor arts) ∈ composeAndSend env target theme aiFilter ∧
    (∀ (i : Nat) (h : i < arts.length),
      strContains (promptSegment i (arts.get ⟨i, h⟩)) (promptFor arts) ∧
      strContains ((arts.get ⟨i, h⟩).title) (promptFor arts)) := by
  have htr := composeAndSend_of_nonempty env target theme aiFilter arts hfetch hne
  refine ⟨?_, ?_, ?_⟩
  · rw [htr]
    cases target <;> rfl
  · rw [htr]
    exact List.mem_cons_self _ _
  · intro i h
    have hlen : i < (mapWithIndex promptSegment 0 arts).length := by
      rw [length_mapWithIndex]
      exact h
    have hget := get_mapWithIndex promptSegment arts 0 i h hlen
    have hmem : promptSegment i (arts.get ⟨i, h⟩) ∈ mapWithIndex promptSegment 0 arts := by
      have hm := List.get_mem (mapWithIndex promptSegment 0 arts) i hlen
      rw [hget] at hm
      simpa using hm
    rcases mem_joinSepS "\n\n" _ (mapWithIndex promptSegment 0 arts) hmem with ⟨l, r, hlr⟩
    constructor
    · refine ⟨promptInstruction.data ++ l, r, ?_⟩
      show (promptInstruction ++ promptBody arts).data = _
      rw [strData_append]
      unfold promptBody
      rw [hlr]
      simp [List.append_assoc]
    · refine ⟨promptInstruction.data ++ l ++
        ("【" ++ Nat.repr (i + 1) ++ "】").data,
        ("\n" ++ ((arts.get ⟨i, h⟩).description.getD "")).data ++ r, ?_⟩
      show (promptInstruction ++ promptBody arts).data = _
      rw [strData_append]
      unfold promptBody
      rw [hlr]
      simp [promptSegment, strData_append, List.append_assoc]

/-- C5 witness: in the concrete two-article run the summarizer is
called exactly once and the prompt contains the second article's full
segment and its title `T2`. -/
theorem c5_summarizer_once_with_all_titles_witness :
    countLlm (composeAndSend envTwo Target.channel "AI" true) = 1 ∧
    BotAction.llmCall (promptFor [artW, artW2]) ∈
      composeAndSend envTwo Target.channel "AI" true ∧
    strContains (promptSegment 1 artW2) (promptFor [artW, artW2]) ∧
    strContains "T2" (promptFor [artW, artW2]) := by
  have hh := c5_summarizer_once_with_all_titles envTwo Target.channel "AI" true
    [artW, artW2] rfl (by decide)
  have h1 := hh.2.2 1 (by decide)
  exact ⟨hh.1, hh.2.1, h1.1, h1.2⟩

/-- C8: the message trigger does nothing for bot authors, for messages
outside the configured target channel, and for messages whose
mention-stripped trimmed body is empty; otherwise it runs the
orchestrator on the message with the stripped text as topic and
curated mode disabled, and the whole trace delivers only as a reply
(no channel `send` ever occurs). -/
theorem c8_message_trigger (env : Env) (cfg : Option String) (msg : InboundMsg) :
    (msg.authorBot = true → onMessageCreate env cfg msg = []) ∧
    (cfg ≠ some msg.channelId → onMessageCreate env cfg msg = []) ∧
    (trimS (stripMentions msg.content) = "" → onMessageCreate env cfg msg = []) ∧
    (msg.authorBot = false → cfg = some msg.channelId →
      trimS (stripMentions msg.content) ≠ "" →
      onMessageCreate env cfg msg =
        composeAndSend env Target.message (trimS (stripMentions msg.content)) false) ∧
    (∀ s, BotAction.send s ∉ onMessageCreate env cfg msg) := by
  refine ⟨?_, ?_, ?_, ?_, ?_⟩
  · intro h
    simp [onMessageCreate, h]
  · intro h
    by_cases hb : msg.authorBot <;> simp [onMessageCreate, hb, h]
  · intro h
    by_cases hb : msg.authorBot
    · simp [onMessageCreate, hb]
    · by_cases hch : cfg ≠ some msg.channelId <;> simp [onMessageCreate, hb, hch, h]
  · intro h1 h2 h3
    simp [onMessageCreate, h1, h2, h3]
  · intro s
    unfold onMessageCreate
    by_cases hb : msg.authorBot
    · simp [hb]
    · by_cases hch : cfg ≠ some msg.channelId
      · simp [hb, hch]
      · by_cases hth : trimS (stripMentions msg.content) = ""
        · simp [hb, hch, hth]
        · simp only [hb, hch, hth]
          simp only [Bool.false_eq_true, if_false, if_neg hch, if_neg hth]
          exact no_send_in_message_trace env _ false s

/-- C8 witness: a concrete user message in the configured channel runs
the orchestrator on its stripped text in ad-hoc mode. -/
theorem c8_message_trigger_witness :
    onMessageCreate envTwo (some "c1") msgW =
      composeAndSend envTwo Target.message (trimS (stripMentions " <@99> hello ")) false :=
  (c8_message_trigger envTwo (some "c1") msgW).2.2.2.1 rfl rfl (by decide)

/-- C10 counterexample: the fallback string is not returned only when
the call throws: a successful completion whose content is exactly the
fallback text makes `summarize` return the fallback string with no
throw. -/
theorem c10_fallback_without_throw :
    summarize envFallbackContent [artW] = fallbackSummary ∧
    envFallbackContent.llm (promptFor [artW]) = .ok (some fallbackSummary) := by
  constructor
  · decide
  · rfl

/-- C10 amended: on a successful call with null/absent content,
`summarize` returns the empty string, which differs from the fallback;
a throwing call returns the fallback; a successful call with content
`c` returns `c` trimmed (so the fallback branch is only reached on a
throw, though a completion equal to the fallback text yields the same
string). -/
theorem c10_null_content_cases (env : Env) (arts : List Article) :
    (env.llm (promptFor arts) = .ok none →
      summarize env arts = "" ∧ summarize env arts ≠ fallbackSummary) ∧
    (∀ e, env.llm (promptFor arts) = .error e →
      summarize env arts = fallbackSummary) ∧
    (∀ c, env.llm (promptFor arts) = .ok (some c) →
      summarize env arts = trimS c) := by
  refine ⟨?_, ?_, ?_⟩
  · intro h
    have hs : summarize env arts = "" := by
      unfold summarize
      rw [h]
    refine ⟨hs, ?_⟩
    rw [hs]
    decide
  · intro e h
    unfold summarize
    rw [h]
  · intro c h
    unfold summarize
    rw [h]

/-- C10 amended witness: a concrete null-content completion yields the
empty summary, not the fallback. -/
theorem c10_null_content_cases_witness :
    summarize envNullLlm [artW] = "" ∧
    summarize envNullLlm [artW] ≠ fallbackSummary :=
  (c10_null_content_cases envNullLlm [artW]).1 rfl
